import Mathlib

/-!
Verification development for the arduino_smart_weather_station data-routing
layer: shared control types (src/control/control_types.h), input reading
types (src/input/input_types.h) and the serial-console output driver
interface (src/output/serial_console/serial_console.h).

Machine integers (uint8_t, uint16_t) are embedded as Nat; the C sources in
scope only declare data shapes and constants, with no arithmetic that can
overflow, so no wrap-around modelling is needed.
-/

/-! ## Constants from src/input/input_types.h -/

/-- Number of bits in a byte (BITS_IN_BYTE). -/
def BITS_IN_BYTE : Nat := 8

/-- Flag indicating that a bit is set (BIT_SET). -/
def BIT_SET : Nat := 1

/-- Maximum number of devices addressable in 7-bit I2C addressing. -/
def I2C_7_BIT_ADDRESSING_MAX_DEVICES : Nat := 127

/-- Scan mode value requesting a scan of all possible I2C addresses. -/
def I2C_SCAN_MODE_SCAN_FOR_ALL_DEVICES : Nat := 0

/-- Array size needed to store one presence bit per possible I2C device:
(127 + 8 - 1) / 8 = 16 bytes. -/
def I2C_SCAN_ARRAY_SIZE : Nat :=
  (I2C_7_BIT_ADDRESSING_MAX_DEVICES + BITS_IN_BYTE - 1) / BITS_IN_BYTE

/-! ## Constants from src/output/serial_console/serial_console.h -/

/-- Size for the null terminator in strings. -/
def SERIAL_CONSOLE_NULL_TERMINATOR_SIZE : Nat := 1

/-- Length of a formatted hex address (two hex digits plus the null
terminator). -/
def SERIAL_CONSOLE_HEX_ADDR_STRING_LEN : Nat := 3

/-! ## Error codes

The header control_error_codes.h is referenced by the sources but its body
is not part of the repository snapshot.  The error-code names used by the
serial-console interface are documented in serial_console.h itself
(ERROR_CODE_NO_ERROR, ERROR_CODE_INVALID_INPUT_TYPE,
ERROR_CODE_SERIAL_INIT_FAILED). -/

/-- Modelled from the spec: the enumeration body of control_error_codes.h is
missing from the sources; the three codes named by the serial-console
contract (success, invalid input type, serial init failed) are modelled as a
closed enumeration. -/
inductive control_error_code_te where
  | ERROR_CODE_NO_ERROR
  | ERROR_CODE_INVALID_INPUT_TYPE
  | ERROR_CODE_SERIAL_INIT_FAILED
deriving DecidableEq, Repr

/-! ## Control types from src/control/control_types.h -/

/-- Represents an unused or invalid ID (CONTROL_ID_UNUSED, 0xFF). -/
def CONTROL_ID_UNUSED : Nat := 0xFF

/-- The control_io_t type alias: an 8-bit unsigned integer carrying a
component tag value. -/
abbrev control_io_t := Nat

/-- The enumerators of the control_io_te enumeration from
control_types.h.  Three of them (INPUT_RTC, OUTPUT_DISPLAY,
OUTPUT_SERIAL_CONSOLE) are guarded by build-configuration ifdefs
(RTC_COMPONENT, LCD_DISPLAY_COMPONENT, SERIAL_CONSOLE_COMPONENT) in the
source text. -/
inductive control_io_te where
  | INPUT_SENSORS
  | INPUT_RTC
  | INPUT_I2C_SCAN
  | INPUT_ERROR
  | OUTPUT_DISPLAY
  | OUTPUT_SERIAL_CONSOLE
  | IO_UNUSED
deriving DecidableEq, Repr, Fintype

/-- A build configuration: which of the three optional components
(RTC_COMPONENT, LCD_DISPLAY_COMPONENT, SERIAL_CONSOLE_COMPONENT) are
defined when control_types.h is preprocessed. -/
structure BuildConfig where
  rtc : Bool
  lcd : Bool
  serial : Bool
deriving DecidableEq, Repr

/-- The roles (non-sentinel enumerators) present in the control_io_te
enumeration under a given build configuration, in declaration order. -/
def control_io_roles (c : BuildConfig) : List control_io_te :=
  [.INPUT_SENSORS]
    ++ (if c.rtc then [.INPUT_RTC] else [])
    ++ [.INPUT_I2C_SCAN, .INPUT_ERROR]
    ++ (if c.lcd then [.OUTPUT_DISPLAY] else [])
    ++ (if c.serial then [.OUTPUT_SERIAL_CONSOLE] else [])

/-- The members of the control_io_te enumeration under a build
configuration, paired with their numeric values.  Following C enumeration
semantics, the roles receive consecutive values starting from 0 in
declaration order, and IO_UNUSED carries the explicit value 0xFF. -/
def control_io_te_members (c : BuildConfig) : List (control_io_te × Nat) :=
  ((control_io_roles c).enum.map fun p => (p.2, p.1)) ++ [(.IO_UNUSED, 0xFF)]

/-- The build configuration with all optional components enabled; this is
the configuration under which the serial-console formatter itself exists
(SERIAL_CONSOLE_COMPONENT defined) and all display routines are present. -/
def fullBuild : BuildConfig := ⟨true, true, true⟩

/-- Numeric value of each control_io_te enumerator under the full build
configuration; used as the tag values the formatter dispatches on. -/
def control_io_value : control_io_te → Nat
  | .INPUT_SENSORS => 0
  | .INPUT_RTC => 1
  | .INPUT_I2C_SCAN => 2
  | .INPUT_ERROR => 3
  | .OUTPUT_DISPLAY => 4
  | .OUTPUT_SERIAL_CONSOLE => 5
  | .IO_UNUSED => 0xFF

/-- The per-enumerator values agree with the members list of the full
build configuration. -/
theorem control_io_value_agrees_fullBuild :
    control_io_te_members fullBuild =
      (control_io_roles fullBuild ++ [control_io_te.IO_UNUSED]).map
        fun r => (r, control_io_value r) := by
  decide

/-- Structure representing a specific device: an I/O component tag and a
device id (control_device_ts). -/
structure control_device_ts where
  io_component : control_io_t
  device_id : Nat
deriving DecidableEq, Repr

/-- Structure representing a generic error in the system
(control_error_ts). -/
structure control_error_ts where
  error_code : control_error_code_te
  component : control_device_ts
deriving DecidableEq, Repr

/-! ## Input reading types from src/input/input_types.h -/

/-- Structure representing a single sensor reading (sensor_reading_ts):
a measured float value, an indication flag, and a discriminator selecting
which of the two is semantically meaningful. -/
structure sensor_reading_ts where
  value : Float
  indication : Bool
  measurement_type_switch : Nat
deriving Repr

/-- Structure representing a Real-Time Clock reading (rtc_reading_ts).
year is a uint16_t, the remaining fields are uint8_t; this layer performs
no range validation on them. -/
structure rtc_reading_ts where
  year : Nat
  month : Nat
  day : Nat
  hour : Nat
  mins : Nat
  secs : Nat
deriving DecidableEq, Repr

/-- Structure representing the result of an I2C scan operation
(i2c_scan_reading_ts).  The addresses field is the 16-byte bit-array, one
presence bit per 7-bit address.  The update_i2c_address function-pointer
field of the C struct is a stored callback, not data; it is outside this
value-level embedding and none of the display behaviour modelled here
reads it. -/
structure i2c_scan_reading_ts where
  addresses : List Nat
  single_device_status : Nat
  device_address : Nat
  current_i2c_addr : Nat
deriving DecidableEq, Repr

/-- Union for handling the various input types (input_return_tu).  The C
union has no internal tag; the live member is selected externally by the
enclosing control_data_ts component tag.  It is embedded as a record of
the member views: every member is always readable, which over-approximates
the C union, where reading any member also always yields some value of
that member type. -/
structure input_return_tu where
  sensor_reading : sensor_reading_ts
  rtc_reading : rtc_reading_ts
  i2c_scan_reading : i2c_scan_reading_ts
  error_msg : control_error_ts
deriving Repr

/-- Structure representing data returned from an input (control_data_ts):
the union payload plus the device descriptor whose component tag selects
the live member. -/
structure control_data_ts where
  input_return : input_return_tu
  input : control_device_ts
deriving Repr

/-- Structure for managing the dual output of data fetching operations
(control_input_data_ts). -/
structure control_input_data_ts where
  data : control_data_ts
  error_code : control_error_code_te
deriving Repr

/-! ## Text rendering helpers

The repository renders numbers into fixed-size text buffers (bounded
conversion).  Decimal rendering is embedded as a fuel-based digit
extraction, most significant digit first. -/

/-- The character for a single decimal digit value. -/
def digitChar (d : Nat) : Char := Char.ofNat (48 + d)

/-- Digits of n in base 10, most significant first; empty for 0.  The
first argument is structural fuel bounding the number of digits. -/
def decDigitsAux : Nat → Nat → List Char
  | 0, _ => []
  | _ + 1, 0 => []
  | fuel + 1, n + 1 =>
    decDigitsAux fuel ((n + 1) / 10) ++ [digitChar ((n + 1) % 10)]

/-- Decimal rendering of a natural number, as-is (no truncation). -/
def natDecChars (n : Nat) : List Char :=
  if n = 0 then ['0'] else decDigitsAux n n

/-- Zero-pad the decimal rendering of n on the left to a minimum width w;
larger numbers are rendered as-is beyond that width. -/
def zeroPad (w n : Nat) : String :=
  String.mk (List.replicate (w - (natDecChars n).length) '0' ++ natDecChars n)

/-- The character for a single hexadecimal digit value. -/
def hexDigitChar (d : Nat) : Char :=
  if d < 10 then Char.ofNat (48 + d) else Char.ofNat (55 + d)

/-- Fixed-width rendering of a 7-bit I2C address as two hexadecimal
digits: always SERIAL_CONSOLE_HEX_ADDR_STRING_LEN minus the null
terminator characters long. -/
def hexAddrString (a : Nat) : String :=
  String.mk [hexDigitChar (a / 16 % 16), hexDigitChar (a % 16)]

/-! ## The serial-console formatter

The implementation file of the serial-console driver is not part of the
repository snapshot; only its interface and contract (serial_console.h)
are.  The formatter below is therefore modelled from the spec, with the
written text represented as a list of display tokens, one token per
emitted item. -/

/-- One item of text emitted on the serial output. -/
inductive display_token where
  | sensorValue (v : Float)
  | sensorIndication (b : Bool)
  | rtcTimestamp (text : String)
  | i2cAddrFound (addr : Nat) (text : String)
  | i2cDeviceStatus (addr : Nat) (status : Nat)
deriving Repr

/-- Whether a token is a rendered sensor numeric value. -/
def display_token.isSensorValue : display_token → Bool
  | .sensorValue _ => true
  | _ => false

/-- Whether a token is a rendered sensor indication flag. -/
def display_token.isSensorIndication : display_token → Bool
  | .sensorIndication _ => true
  | _ => false

/-- Modelled from the spec: the numeric encoding of the
measurement_type_switch discriminator comes from sensors_interface.h,
which is missing from the sources.  The spec only requires a two-way
selection between the float value and the indication flag; the value
measurement is encoded as 0 here. -/
def MEASUREMENT_TYPE_VALUE : Nat := 0

/-- Whether the discriminator of a sensor reading selects the numeric
value (rather than the indication flag). -/
def sensor_selectsValue (r : sensor_reading_ts) : Bool :=
  r.measurement_type_switch == MEASUREMENT_TYPE_VALUE

/-- Modelled from the spec: the timestamp layout of the missing display
routine for RTC readings.  All six fields appear in the fixed order year,
month, day, hour, mins, secs, each zero-padded to its minimum field width
(4 for the year, 2 for the rest) and otherwise rendered as-is, with no
range validation. -/
def rtc_timestampString (r : rtc_reading_ts) : String :=
  zeroPad 4 r.year ++ "." ++ zeroPad 2 r.month ++ "." ++ zeroPad 2 r.day
    ++ " " ++ zeroPad 2 r.hour ++ ":" ++ zeroPad 2 r.mins ++ ":"
    ++ zeroPad 2 r.secs

/-- Whether the presence bit of the given 7-bit address is set in the
addresses bit-array: bit index = byte * BITS_IN_BYTE + bit offset,
low-bit-first within each byte. -/
def i2c_addrBitSet (addresses : List Nat) (addr : Nat) : Bool :=
  ((addresses.getD (addr / BITS_IN_BYTE) 0) >>> (addr % BITS_IN_BYTE)) % 2
    == BIT_SET

/-- Modelled from the spec: the scan-all display routine of the missing
implementation iterates the address bit-array from the lowest valid
address (1) to the highest (127), keeping each address whose presence bit
is set. -/
def i2c_foundAddresses (addresses : List Nat) : List Nat :=
  (List.range' 1 I2C_7_BIT_ADDRESSING_MAX_DEVICES).filter
    fun a => i2c_addrBitSet addresses a

/-- Modelled from the spec: the implementation of
serial_console_displayData is not part of the repository snapshot (only
its declaration and contract in serial_console.h).  Following the spec,
the function dispatches on the component tag of the envelope and renders
the matching union member: a sensor reading as one value-or-indication
token, an RTC reading as one fixed-layout timestamp line, an I2C scan
either as the list of set addresses of the bit-array (scan-all mode,
device_address 0) or as the single-device status token; any other tag
yields the invalid-input-type error with no output.  The result is the
returned error code together with the text tokens written to the serial
output. -/
def serial_console_displayData (data : control_data_ts) :
    control_error_code_te × List display_token :=
  if data.input.io_component = control_io_value .INPUT_SENSORS then
    let r := data.input_return.sensor_reading
    (.ERROR_CODE_NO_ERROR,
      [if sensor_selectsValue r then .sensorValue r.value
       else .sensorIndication r.indication])
  else if data.input.io_component = control_io_value .INPUT_RTC then
    (.ERROR_CODE_NO_ERROR,
      [.rtcTimestamp (rtc_timestampString data.input_return.rtc_reading)])
  else if data.input.io_component = control_io_value .INPUT_I2C_SCAN then
    let r := data.input_return.i2c_scan_reading
    if r.device_address = I2C_SCAN_MODE_SCAN_FOR_ALL_DEVICES then
      (.ERROR_CODE_NO_ERROR,
        (i2c_foundAddresses r.addresses).map
          fun a => .i2cAddrFound a (hexAddrString a))
    else
      (.ERROR_CODE_NO_ERROR,
        [.i2cDeviceStatus r.device_address r.single_device_status])
  else
    (.ERROR_CODE_INVALID_INPUT_TYPE, [])

/-- The serial-console channel state: whether the channel has been opened
and the sequence of tokens written to the output so far.  This is the
only state the driver touches. -/
structure serial_console_state_ts where
  channel_open : Bool
  written : List display_token
deriving Repr

/-- serial_console_displayData as a state transformer on the serial
channel: the rendered tokens are appended to the output and nothing else
changes.  The envelope is taken by read-only reference in C (const
control_data_ts pointer) and is a plain value here. -/
def serial_console_displayDataOn (data : control_data_ts)
    (st : serial_console_state_ts) :
    control_error_code_te × serial_console_state_ts :=
  let r := serial_console_displayData data
  (r.1, { st with written := st.written ++ r.2 })

/-- Modelled from the spec: the implementation of serial_console_init is
not part of the repository snapshot.  Following its contract, it begins
serial communication at a fixed baud rate without blocking, returning
ERROR_CODE_NO_ERROR on success and ERROR_CODE_SERIAL_INIT_FAILED when the
channel cannot be opened; whether opening succeeds depends only on the
availability of the underlying hardware. -/
def serial_console_init (hw_available : Bool)
    (st : serial_console_state_ts) :
    control_error_code_te × serial_console_state_ts :=
  if hw_available then
    (.ERROR_CODE_NO_ERROR, { st with channel_open := true })
  else
    (.ERROR_CODE_SERIAL_INIT_FAILED, st)

/-! ## Sample data for concrete evaluations -/

/-- A sample sensor reading: discriminator 0 selects the numeric value. -/
def exSensorReading : sensor_reading_ts := ⟨21.5, false, 0⟩

/-- A sample RTC reading with in-range fields. -/
def exRtcReading : rtc_reading_ts := ⟨2024, 3, 7, 9, 5, 30⟩

/-- A sample scan-all I2C reading whose bit-array has exactly bit 5
(byte 0, offset 5) and bit 64 (byte 8, offset 0) set. -/
def exI2cReading : i2c_scan_reading_ts :=
  ⟨[32, 0, 0, 0, 0, 0, 0, 0, 1, 0, 0, 0, 0, 0, 0, 0], 0, 0, 0⟩

/-- A sample union payload holding all member views. -/
def exUnion : input_return_tu :=
  ⟨exSensorReading, exRtcReading, exI2cReading,
    ⟨.ERROR_CODE_NO_ERROR, ⟨0xFF, 0xFF⟩⟩⟩

/-- A sample envelope with the given component tag. -/
def exEnvelope (tag : Nat) : control_data_ts := ⟨exUnion, ⟨tag, 1⟩⟩

/-! ## Claim theorems -/

/-- C9: The DeviceComponent tag type (control_io_te) is a small closed
enumeration: every value is one of the six enumerated roles (sensors,
RTC, I2C scanner, error sink, display, serial console) or the unused
sentinel, and under the full build configuration the enumeration contains
exactly the six roles, in declaration order, plus the sentinel. -/
theorem control_io_te_closed_enumeration :
    (∀ x : control_io_te,
      x = .INPUT_SENSORS ∨ x = .INPUT_RTC ∨ x = .INPUT_I2C_SCAN ∨
        x = .INPUT_ERROR ∨ x = .OUTPUT_DISPLAY ∨
        x = .OUTPUT_SERIAL_CONSOLE ∨ x = .IO_UNUSED) ∧
    control_io_roles fullBuild =
      [.INPUT_SENSORS, .INPUT_RTC, .INPUT_I2C_SCAN, .INPUT_ERROR,
        .OUTPUT_DISPLAY, .OUTPUT_SERIAL_CONSOLE] := by
  decide

/-- C10: The unused sentinels of the component tag and the device id
agree at 0xFF (IO_UNUSED has value 0xFF and CONTROL_ID_UNUSED is 0xFF),
and in every build configuration no enumerated role receives the value
0xFF, so the sentinel is disjoint from every valid role value. -/
theorem control_io_unused_sentinel_disjoint :
    CONTROL_ID_UNUSED = 0xFF ∧
    control_io_value .IO_UNUSED = CONTROL_ID_UNUSED ∧
    ∀ (r l s : Bool), ∀ p ∈ control_io_te_members ⟨r, l, s⟩,
      p.1 ≠ .IO_UNUSED → p.2 ≠ CONTROL_ID_UNUSED := by
  decide

/-- Witness for C10 at a concrete member: INPUT_SENSORS has value 0 in
the full build configuration and 0 is not the sentinel value. -/
theorem control_io_unused_sentinel_disjoint_witness :
    ((control_io_te.INPUT_SENSORS, 0) ∈
        control_io_te_members ⟨true, true, true⟩) ∧
    (0 : Nat) ≠ CONTROL_ID_UNUSED :=
  ⟨by decide,
    control_io_unused_sentinel_disjoint.2.2 true true true
      (control_io_te.INPUT_SENSORS, 0) (by decide) (by decide)⟩

/-- C1: For every envelope, serial_console_displayData returns exactly
one of the two result codes: success or the invalid-input-type error;
no other value is possible and the function is total (no exceptional
exit). -/
theorem serial_console_displayData_result_dichotomy
    (data : control_data_ts) :
    (serial_console_displayData data).1 = .ERROR_CODE_NO_ERROR ∨
    (serial_console_displayData data).1
      = .ERROR_CODE_INVALID_INPUT_TYPE := by
  unfold serial_console_displayData
  dsimp only
  repeat' split
  all_goals first | exact Or.inl rfl | exact Or.inr rfl

/-- C2: For every envelope whose component tag matches none of the known
display routines (sensors, RTC, I2C scan) - in particular the IO_UNUSED
sentinel value 0xFF - displayData returns the invalid-input-type error,
emits no tokens, and leaves the serial output state unchanged. -/
theorem serial_console_displayData_unknown_tag (data : control_data_ts)
    (h0 : data.input.io_component ≠ control_io_value .INPUT_SENSORS)
    (h1 : data.input.io_component ≠ control_io_value .INPUT_RTC)
    (h2 : data.input.io_component ≠ control_io_value .INPUT_I2C_SCAN) :
    (serial_console_displayData data).1
      = .ERROR_CODE_INVALID_INPUT_TYPE ∧
    (serial_console_displayData data).2 = [] ∧
    ∀ st : serial_console_state_ts,
      (serial_console_displayDataOn data st).2 = st := by
  have hd : serial_console_displayData data
      = (.ERROR_CODE_INVALID_INPUT_TYPE, []) := by
    unfold serial_console_displayData
    simp [h0, h1, h2]
  refine ⟨by rw [hd], by rw [hd], fun st => ?_⟩
  unfold serial_console_displayDataOn
  rw [hd]
  simp

/-- Witness for C2: the sentinel tag 0xFF yields the invalid-input-type
error and an unchanged state. -/
theorem serial_console_displayData_unknown_tag_witness :
    ((exEnvelope 0xFF).input.io_component
        ≠ control_io_value .INPUT_SENSORS) ∧
    (serial_console_displayData (exEnvelope 0xFF)).1
      = .ERROR_CODE_INVALID_INPUT_TYPE ∧
    (serial_console_displayDataOn (exEnvelope 0xFF)
        ⟨true, []⟩).2 = ⟨true, []⟩ := by
  have h := serial_console_displayData_unknown_tag (exEnvelope 0xFF)
    (by decide) (by decide) (by decide)
  exact ⟨by decide, h.1, h.2.2 ⟨true, []⟩⟩

/-- C7: the only effect of a displayData call is appending the rendered
tokens to the serial output: the channel open/closed status is preserved,
the written stream is extended by exactly the rendered tokens, and the
returned code is the code of the pure renderer; the envelope is a
read-only value. -/
theorem serial_console_displayDataOn_frame (data : control_data_ts)
    (st : serial_console_state_ts) :
    (serial_console_displayDataOn data st).2.channel_open
      = st.channel_open ∧
    (serial_console_displayDataOn data st).2.written
      = st.written ++ (serial_console_displayData data).2 ∧
    (serial_console_displayDataOn data st).1
      = (serial_console_displayData data).1 :=
  ⟨rfl, rfl, rfl⟩

/-- C8: under unchanged hardware availability, two consecutive calls to
serial_console_init return the same result code. -/
theorem serial_console_init_idempotent_result (hw : Bool)
    (st : serial_console_state_ts) :
    (serial_console_init hw ((serial_console_init hw st).2)).1
      = (serial_console_init hw st).1 := by
  cases hw <;> rfl

/-- C5: on a sensor-tagged envelope, displayData returns success and
emits exactly one token: the numeric value when the discriminator selects
the value, the indication token when it selects the indication, and never
both kinds at once. -/
theorem serial_console_displayData_sensor (data : control_data_ts)
    (htag : data.input.io_component = control_io_value .INPUT_SENSORS) :
    (serial_console_displayData data).1 = .ERROR_CODE_NO_ERROR ∧
    (serial_console_displayData data).2 =
      [if sensor_selectsValue data.input_return.sensor_reading then
          .sensorValue data.input_return.sensor_reading.value
        else .sensorIndication data.input_return.sensor_reading.indication] ∧
    (serial_console_displayData data).2.length = 1 ∧
    ((serial_console_displayData data).2.countP display_token.isSensorValue
      = if sensor_selectsValue data.input_return.sensor_reading
          then 1 else 0) ∧
    ((serial_console_displayData data).2.countP
        display_token.isSensorIndication
      = if sensor_selectsValue data.input_return.sensor_reading
          then 0 else 1) := by
  have hd : serial_console_displayData data
      = (.ERROR_CODE_NO_ERROR,
          [if sensor_selectsValue data.input_return.sensor_reading then
              .sensorValue data.input_return.sensor_reading.value
            else
              .sensorIndication data.input_return.sensor_reading.indication])
      := by
    unfold serial_console_displayData
    rw [if_pos htag]
  rw [hd]
  cases hsel : sensor_selectsValue data.input_return.sensor_reading <;>
    simp [hsel, List.countP_cons, display_token.isSensorValue,
      display_token.isSensorIndication]

/-- Witness for C5 at a concrete sensor envelope whose discriminator
selects the numeric value. -/
theorem serial_console_displayData_sensor_witness :
    (exEnvelope 0).input.io_component
      = control_io_value .INPUT_SENSORS ∧
    (serial_console_displayData (exEnvelope 0)).1
      = .ERROR_CODE_NO_ERROR ∧
    (serial_console_displayData (exEnvelope 0)).2.length = 1 := by
  have h := serial_console_displayData_sensor (exEnvelope 0) rfl
  exact ⟨rfl, h.1, h.2.2.1⟩

/-- Replace only the addresses bit-array inside the I2C member of an
envelope, leaving every other field unchanged. -/
def i2c_withAddresses (data : control_data_ts) (addrs : List Nat) :
    control_data_ts :=
  { data with input_return :=
      { data.input_return with i2c_scan_reading :=
          { data.input_return.i2c_scan_reading with addresses := addrs } } }

/-- C4: on an I2C-tagged envelope in single-device mode (device_address
in [1,127]), displayData returns success and emits exactly one status
token for that address, and the output is independent of the addresses
bit-array: replacing the bit-array by any other value leaves the entire
result unchanged. -/
theorem serial_console_displayData_i2c_single (data : control_data_ts)
    (htag : data.input.io_component = control_io_value .INPUT_I2C_SCAN)
    (h1 : 1 ≤ data.input_return.i2c_scan_reading.device_address)
    (h7 : data.input_return.i2c_scan_reading.device_address
      ≤ I2C_7_BIT_ADDRESSING_MAX_DEVICES) :
    (serial_console_displayData data).1 = .ERROR_CODE_NO_ERROR ∧
    (serial_console_displayData data).2 =
      [.i2cDeviceStatus data.input_return.i2c_scan_reading.device_address
          data.input_return.i2c_scan_reading.single_device_status] ∧
    (serial_console_displayData data).2.length = 1 ∧
    ∀ addrs2 : List Nat,
      serial_console_displayData (i2c_withAddresses data addrs2)
        = serial_console_displayData data := by
  have t0 : data.input.io_component ≠ control_io_value .INPUT_SENSORS := by
    rw [htag]; decide
  have t1 : data.input.io_component ≠ control_io_value .INPUT_RTC := by
    rw [htag]; decide
  have hne0 : data.input_return.i2c_scan_reading.device_address
      ≠ I2C_SCAN_MODE_SCAN_FOR_ALL_DEVICES := by
    unfold I2C_SCAN_MODE_SCAN_FOR_ALL_DEVICES
    omega
  have hd : serial_console_displayData data
      = (.ERROR_CODE_NO_ERROR,
          [.i2cDeviceStatus data.input_return.i2c_scan_reading.device_address
              data.input_return.i2c_scan_reading.single_device_status]) := by
    unfold serial_console_displayData
    rw [if_neg t0, if_neg t1, if_pos htag]
    dsimp only
    rw [if_neg hne0]
  refine ⟨by rw [hd], by rw [hd], by rw [hd]; rfl, fun addrs2 => ?_⟩
  have hd2 : serial_console_displayData (i2c_withAddresses data addrs2)
      = (.ERROR_CODE_NO_ERROR,
          [.i2cDeviceStatus data.input_return.i2c_scan_reading.device_address
              data.input_return.i2c_scan_reading.single_device_status]) := by
    unfold serial_console_displayData i2c_withAddresses
    rw [if_neg t0, if_neg t1, if_pos htag]
    dsimp only
    rw [if_neg hne0]
  rw [hd2, hd]

/-- A sample single-device-mode I2C envelope: device_address 55,
single_device_status 4. -/
def exI2cSingleEnvelope : control_data_ts :=
  ⟨{ exUnion with i2c_scan_reading :=
      ⟨[1, 2, 3, 0, 0, 0, 0, 0, 0, 0, 0, 0, 0, 0, 0, 0], 4, 55, 0⟩ },
    ⟨2, 1⟩⟩

/-- Witness for C4 at the concrete single-device envelope: one status
token for address 55, and the output does not change when the bit-array
is replaced. -/
theorem serial_console_displayData_i2c_single_witness :
    1 ≤ exI2cSingleEnvelope.input_return.i2c_scan_reading.device_address ∧
    (serial_console_displayData exI2cSingleEnvelope).2
      = [.i2cDeviceStatus 55 4] ∧
    serial_console_displayData
        (i2c_withAddresses exI2cSingleEnvelope [9, 9, 9])
      = serial_console_displayData exI2cSingleEnvelope := by
  have h := serial_console_displayData_i2c_single exI2cSingleEnvelope
    rfl (by decide) (by decide)
  exact ⟨by decide, h.2.1, h.2.2.2 [9, 9, 9]⟩

/-- C3: on an I2C-tagged envelope in scan-all mode (device_address 0),
displayData returns success and emits one fixed-width hexadecimal token
per set bit of the 127-entry address bit-array, enumerated from the
lowest address to the highest: the emitted addresses are exactly those in
[1,127] whose presence bit is set, in strictly ascending order, and each
token is rendered at the fixed hex width. -/
theorem serial_console_displayData_i2c_scan_all (data : control_data_ts)
    (htag : data.input.io_component = control_io_value .INPUT_I2C_SCAN)
    (hmode : data.input_return.i2c_scan_reading.device_address
      = I2C_SCAN_MODE_SCAN_FOR_ALL_DEVICES) :
    (serial_console_displayData data).1 = .ERROR_CODE_NO_ERROR ∧
    (serial_console_displayData data).2 =
      (i2c_foundAddresses
          data.input_return.i2c_scan_reading.addresses).map
        (fun a => .i2cAddrFound a (hexAddrString a)) ∧
    List.Sorted (· < ·)
      (i2c_foundAddresses data.input_return.i2c_scan_reading.addresses) ∧
    (∀ a : Nat,
      a ∈ i2c_foundAddresses
          data.input_return.i2c_scan_reading.addresses ↔
        1 ≤ a ∧ a ≤ I2C_7_BIT_ADDRESSING_MAX_DEVICES ∧
          i2c_addrBitSet data.input_return.i2c_scan_reading.addresses a
            = true) ∧
    ∀ a : Nat, (hexAddrString a).length
      = SERIAL_CONSOLE_HEX_ADDR_STRING_LEN
          - SERIAL_CONSOLE_NULL_TERMINATOR_SIZE := by
  have t0 : data.input.io_component ≠ control_io_value .INPUT_SENSORS := by
    rw [htag]; decide
  have t1 : data.input.io_component ≠ control_io_value .INPUT_RTC := by
    rw [htag]; decide
  have hd : serial_console_displayData data
      = (.ERROR_CODE_NO_ERROR,
          (i2c_foundAddresses
              data.input_return.i2c_scan_reading.addresses).map
            (fun a => .i2cAddrFound a (hexAddrString a))) := by
    unfold serial_console_displayData
    rw [if_neg t0, if_neg t1, if_pos htag]
    dsimp only
    rw [if_pos hmode]
  refine ⟨by rw [hd], by rw [hd], ?_, ?_, fun a => rfl⟩
  · exact List.Sorted.filter _ (List.pairwise_lt_range' 1 127)
  · intro a
    unfold i2c_foundAddresses I2C_7_BIT_ADDRESSING_MAX_DEVICES
    rw [List.mem_filter, List.mem_range'_1]
    constructor
    · rintro ⟨⟨ha1, ha2⟩, hb⟩
      exact ⟨ha1, by omega, hb⟩
    · rintro ⟨ha1, ha2, hb⟩
      exact ⟨⟨ha1, by omega⟩, hb⟩

/-- Witness for C3 at the concrete scan-all envelope with exactly bits 5
and 64 set: exactly two tokens are emitted, for decimal addresses 5 and
64, in ascending order. -/
theorem serial_console_displayData_i2c_scan_all_witness :
    (exEnvelope 2).input.io_component
      = control_io_value .INPUT_I2C_SCAN ∧
    i2c_foundAddresses
        (exEnvelope 2).input_return.i2c_scan_reading.addresses
      = [5, 64] ∧
    (serial_console_displayData (exEnvelope 2)).2 =
      [.i2cAddrFound 5 (hexAddrString 5),
        .i2cAddrFound 64 (hexAddrString 64)] ∧
    (serial_console_displayData (exEnvelope 2)).1
      = .ERROR_CODE_NO_ERROR := by
  have h := serial_console_displayData_i2c_scan_all (exEnvelope 2) rfl rfl
  have hf : i2c_foundAddresses
      (exEnvelope 2).input_return.i2c_scan_reading.addresses
      = [5, 64] := by decide
  refine ⟨rfl, hf, ?_, h.1⟩
  rw [h.2.1, hf]
  rfl

/-- Digit-count bound: a number below 10 ^ k renders with at most k
decimal digits, whatever the fuel. -/
theorem decDigitsAux_length_le (fuel : Nat) :
    ∀ (k n : Nat), n < 10 ^ k → (decDigitsAux fuel n).length ≤ k := by
  induction fuel with
  | zero =>
    intro k n _
    simp [decDigitsAux]
  | succ fuel ih =>
    intro k n hn
    cases n with
    | zero => simp [decDigitsAux]
    | succ m =>
      cases k with
      | zero =>
        simp only [pow_zero] at hn
        omega
      | succ k =>
        simp only [decDigitsAux, List.length_append, List.length_cons,
          List.length_nil]
        have hdiv : (m + 1) / 10 < 10 ^ k := by
          apply Nat.div_lt_of_lt_mul
          rw [Nat.mul_comm, ← pow_succ]
          exact hn
        have := ih k ((m + 1) / 10) hdiv
        omega

/-- Decimal rendering of a number below 10 ^ k takes at most k
characters, for positive k. -/
theorem natDecChars_length_le (k n : Nat) (hk : 1 ≤ k)
    (hn : n < 10 ^ k) : (natDecChars n).length ≤ k := by
  unfold natDecChars
  split
  · simpa using hk
  · exact decDigitsAux_length_le n k n hn

/-- Zero-padding renders at exactly the requested width whenever the bare
decimal rendering fits in it. -/
theorem zeroPad_length (w n : Nat) (h : (natDecChars n).length ≤ w) :
    (zeroPad w n).length = w := by
  unfold zeroPad
  rw [String.length_mk, List.length_append, List.length_replicate]
  omega

/-- C6 (amended): on an RTC-tagged envelope, displayData returns success
and renders all six timestamp fields in the fixed order year, month, day,
hour, mins, secs, each zero-padded to its minimum field width (4 for the
year, 2 for the others) with no range validation, the value itself being
rendered as-is; for field values that fit their minimum widths the total
rendered width is the fixed 19 characters. -/
theorem serial_console_displayData_rtc (data : control_data_ts)
    (htag : data.input.io_component = control_io_value .INPUT_RTC) :
    (serial_console_displayData data).1 = .ERROR_CODE_NO_ERROR ∧
    (serial_console_displayData data).2 =
      [.rtcTimestamp (rtc_timestampString data.input_return.rtc_reading)] ∧
    (∀ r : rtc_reading_ts,
      rtc_timestampString r =
        zeroPad 4 r.year ++ "." ++ zeroPad 2 r.month ++ "."
          ++ zeroPad 2 r.day ++ " " ++ zeroPad 2 r.hour ++ ":"
          ++ zeroPad 2 r.mins ++ ":" ++ zeroPad 2 r.secs) ∧
    ∀ r : rtc_reading_ts, r.year < 10 ^ 4 → r.month < 10 ^ 2 →
      r.day < 10 ^ 2 → r.hour < 10 ^ 2 → r.mins < 10 ^ 2 →
      r.secs < 10 ^ 2 → (rtc_timestampString r).length = 19 := by
  have t0 : data.input.io_component ≠ control_io_value .INPUT_SENSORS := by
    rw [htag]; decide
  have hd : serial_console_displayData data
      = (.ERROR_CODE_NO_ERROR,
          [.rtcTimestamp
              (rtc_timestampString data.input_return.rtc_reading)]) := by
    unfold serial_console_displayData
    rw [if_neg t0, if_pos htag]
  refine ⟨by rw [hd], by rw [hd], fun r => rfl, ?_⟩
  intro r hy hmo hda hh hmi hs
  unfold rtc_timestampString
  simp only [String.length_append]
  rw [zeroPad_length 4 r.year (natDecChars_length_le 4 r.year (by omega) hy),
    zeroPad_length 2 r.month (natDecChars_length_le 2 r.month (by omega) hmo),
    zeroPad_length 2 r.day (natDecChars_length_le 2 r.day (by omega) hda),
    zeroPad_length 2 r.hour (natDecChars_length_le 2 r.hour (by omega) hh),
    zeroPad_length 2 r.mins (natDecChars_length_le 2 r.mins (by omega) hmi),
    zeroPad_length 2 r.secs (natDecChars_length_le 2 r.secs (by omega) hs)]
  rfl

/-- Witness for C6 (amended) at the concrete RTC envelope: success, the
in-range example reading renders at the fixed total width, and month 3
renders as the two characters 03, not as the single character 3. -/
theorem serial_console_displayData_rtc_witness :
    (exEnvelope 1).input.io_component = control_io_value .INPUT_RTC ∧
    (serial_console_displayData (exEnvelope 1)).1
      = .ERROR_CODE_NO_ERROR ∧
    (rtc_timestampString exRtcReading).length = 19 ∧
    zeroPad 2 3 = "03" := by
  have h := serial_console_displayData_rtc (exEnvelope 1) rfl
  exact ⟨rfl, h.1,
    h.2.2.2 exRtcReading (by decide) (by decide) (by decide) (by decide)
      (by decide) (by decide),
    by decide⟩

/-- C6 counterexample: the rendered field widths are not independent of
input magnitude.  The layer performs no validation and formats fields
as-is, so the out-of-range month 200 occupies three characters where the
in-range month 3 occupies two: two readings differing only in magnitude
render at different total widths (20 against 19). -/
theorem rtc_fixed_width_counterexample :
    serial_console_displayData
        (⟨{ exUnion with rtc_reading := ⟨2024, 200, 7, 9, 5, 30⟩ },
          ⟨1, 1⟩⟩ : control_data_ts)
      = (.ERROR_CODE_NO_ERROR,
          [.rtcTimestamp (rtc_timestampString ⟨2024, 200, 7, 9, 5, 30⟩)]) ∧
    (rtc_timestampString ⟨2024, 200, 7, 9, 5, 30⟩).length = 20 ∧
    (rtc_timestampString ⟨2024, 3, 7, 9, 5, 30⟩).length = 19 :=
  ⟨rfl, by decide, by decide⟩
